import Mathlib

/-!
# gkconcept_2: Wi-Fi station with bounded retry and an MQTT ping/pong session

A shallow embedding of `src/main.cpp`.  The two event callbacks
(`event_handler`, `mqtt_event_handler_cb`) become pure functions that return
the new value of the file-level state together with the list of vendor calls
they make, in program order.  The boot path (`app_main`, `WIFI_Handler::init_sta`,
`MQTT_Handler::start`) becomes a function from the results of the vendor calls
to the trace of calls performed and the way the boot ends.
-/

namespace GK

/-! ## Wi-Fi: vendor constants used by `event_handler`

The enum members, bit macros and error codes below come from the vendor headers,
which are not part of the source tree; they carry the values of those headers.  The
code only compares them for equality, so all that matters is that different members
of one enum are different. -/

/-- The event base handed to a handler.  In the vendor API it is a pointer that is
compared by address; `WIFI_EVENT` and `IP_EVENT` are two distinct bases and every
other base is `other`. -/
inductive esp_event_base_t
  | WIFI_EVENT
  | IP_EVENT
  | other (tag : Nat)
  deriving DecidableEq, Repr

/-- Vendor enum `wifi_event_t`: `WIFI_EVENT_STA_START` is its third member. -/
def WIFI_EVENT_STA_START : Int := 2

/-- Vendor enum `wifi_event_t`: `WIFI_EVENT_STA_DISCONNECTED` is its sixth member. -/
def WIFI_EVENT_STA_DISCONNECTED : Int := 5

/-- Vendor enum `ip_event_t`: `IP_EVENT_STA_GOT_IP` is its first member. -/
def IP_EVENT_STA_GOT_IP : Int := 0

/-- Vendor macro `BIT0`. -/
def BIT0 : Nat := 1

/-- Vendor macro `BIT1`. -/
def BIT1 : Nat := 2

/-- Source line 15: `#define WIFI_CONNECTED_BIT BIT0`. -/
def WIFI_CONNECTED_BIT : Nat := BIT0

/-- Source line 16: `#define WIFI_FAIL_BIT BIT1`. -/
def WIFI_FAIL_BIT : Nat := BIT1

/-- Source line 18. -/
def TAG_WIFI : String := "[WIFI STATION]"

/-- The vendor calls `event_handler` makes. -/
inductive WifiCall
  | esp_wifi_connect
  | xEventGroupSetBits (bits : Nat)
  | ESP_LOGI (tag : String) (msg : String)
  deriving DecidableEq, Repr

/-- The file-level state `event_handler` reads and writes: the counter
`s_retry_num` (a C `int`; it is only ever incremented below 3, so it never
overflows) and the bits held by the event group `s_wifi_event_group`. -/
structure WifiState where
  s_retry_num : Int
  s_wifi_event_group : Nat
  deriving DecidableEq, Repr

/-- An event as the event loop delivers it: its base and its id (`int32_t`). -/
structure WifiEvent where
  event_base : esp_event_base_t
  event_id : Int
  deriving DecidableEq, Repr

/-- Source lines 27-55.  `xEventGroupSetBits(g, m)` ors `m` into the bits of `g`. -/
def event_handler (st : WifiState) (event_base : esp_event_base_t) (event_id : Int) :
    WifiState × List WifiCall :=
  if event_base = esp_event_base_t.WIFI_EVENT ∧ event_id = WIFI_EVENT_STA_START then
    (st, [WifiCall.esp_wifi_connect])
  else if event_base = esp_event_base_t.WIFI_EVENT ∧ event_id = WIFI_EVENT_STA_DISCONNECTED then
    if st.s_retry_num < 3 then
      ({ st with s_retry_num := st.s_retry_num + 1 },
        [WifiCall.esp_wifi_connect,
         WifiCall.ESP_LOGI TAG_WIFI "retry to connect to the AP",
         WifiCall.ESP_LOGI TAG_WIFI "connect to the AP fail"])
    else
      ({ st with s_wifi_event_group := st.s_wifi_event_group ||| WIFI_FAIL_BIT },
        [WifiCall.xEventGroupSetBits WIFI_FAIL_BIT,
         WifiCall.ESP_LOGI TAG_WIFI "connect to the AP fail"])
  else if event_base = esp_event_base_t.IP_EVENT ∧ event_id = IP_EVENT_STA_GOT_IP then
    ({ s_retry_num := 0,
       s_wifi_event_group := st.s_wifi_event_group ||| WIFI_CONNECTED_BIT },
      [WifiCall.ESP_LOGI TAG_WIFI "got ip:",
       WifiCall.xEventGroupSetBits WIFI_CONNECTED_BIT])
  else
    (st, [])

/-- Source lines 62-64: the constructor sets `s_retry_num = 0`. -/
def WIFI_Handler.WIFI_Handler (st : WifiState) : WifiState :=
  { st with s_retry_num := 0 }

/-- The state in which the handler is registered: the counter as the constructor
leaves it (it is also 0 by its initialiser, line 24) and the event group fresh from
`xEventGroupCreate` (line 68), with no bit set. -/
def initialState : WifiState :=
  WIFI_Handler.WIFI_Handler { s_retry_num := 0, s_wifi_event_group := 0 }

/-- The event is a station-disconnected event. -/
def isDisconnect (e : WifiEvent) : Bool :=
  e.event_base = esp_event_base_t.WIFI_EVENT && e.event_id = WIFI_EVENT_STA_DISCONNECTED

/-- The event is a station-start event. -/
def isStaStart (e : WifiEvent) : Bool :=
  e.event_base = esp_event_base_t.WIFI_EVENT && e.event_id = WIFI_EVENT_STA_START

/-- The event is a got-IP event. -/
def isGotIp (e : WifiEvent) : Bool :=
  e.event_base = esp_event_base_t.IP_EVENT && e.event_id = IP_EVENT_STA_GOT_IP

/-- The station-disconnected event. -/
def disconnectEv : WifiEvent :=
  { event_base := esp_event_base_t.WIFI_EVENT, event_id := WIFI_EVENT_STA_DISCONNECTED }

/-- The got-IP event. -/
def gotIpEv : WifiEvent :=
  { event_base := esp_event_base_t.IP_EVENT, event_id := IP_EVENT_STA_GOT_IP }

/-- The station-start event. -/
def staStartEv : WifiEvent :=
  { event_base := esp_event_base_t.WIFI_EVENT, event_id := WIFI_EVENT_STA_START }

/-- The state after the events of a sequence have been delivered in order. -/
def deliver (st : WifiState) : List WifiEvent → WifiState
  | [] => st
  | e :: es => deliver (event_handler st e.event_base e.event_id).1 es

/-- The calls made in response to each event of a sequence, in order. -/
def responses (st : WifiState) : List WifiEvent → List (WifiEvent × List WifiCall)
  | [] => []
  | e :: es =>
    (e, (event_handler st e.event_base e.event_id).2) ::
      responses (event_handler st e.event_base e.event_id).1 es

/-- Number of `esp_wifi_connect` calls in a list of calls. -/
def connectCalls (cs : List WifiCall) : Nat :=
  cs.count WifiCall.esp_wifi_connect

/-- Number of `esp_wifi_connect` calls made in response to the disconnect events
of a sequence. -/
def retryConnects (st : WifiState) (evs : List WifiEvent) : Nat :=
  (((responses st evs).filter (fun p => isDisconnect p.1)).map
    (fun p => connectCalls p.2)).sum

/-- Number of disconnect events in a sequence. -/
def disconnects (evs : List WifiEvent) : Nat :=
  evs.countP isDisconnect

/-- The call sets the given bits of the event group. -/
def setsBits (bits : Nat) (cs : List WifiCall) : Bool :=
  cs.contains (WifiCall.xEventGroupSetBits bits)

/-- The list holds a call of `xEventGroupSetBits`, whatever its argument. -/
def anySetBits (cs : List WifiCall) : Bool :=
  cs.any (fun c => match c with
    | WifiCall.xEventGroupSetBits _ => true
    | _ => false)

/-- The failure bit (bit 1) of an event-group value. -/
def failBit (bits : Nat) : Bool := bits.testBit 1

/-- The connected bit (bit 0) of an event-group value. -/
def connectedBit (bits : Nat) : Bool := bits.testBit 0

/-! ## MQTT: the session callback -/

/-- Vendor enum `esp_mqtt_event_id_t`. -/
def MQTT_EVENT_ANY : Int := -1

/-- Vendor enum `esp_mqtt_event_id_t`. -/
def MQTT_EVENT_ERROR : Int := 0

/-- Vendor enum `esp_mqtt_event_id_t`. -/
def MQTT_EVENT_CONNECTED : Int := 1

/-- Vendor enum `esp_mqtt_event_id_t`. -/
def MQTT_EVENT_DISCONNECTED : Int := 2

/-- Vendor enum `esp_mqtt_event_id_t`. -/
def MQTT_EVENT_SUBSCRIBED : Int := 3

/-- Vendor enum `esp_mqtt_event_id_t`. -/
def MQTT_EVENT_UNSUBSCRIBED : Int := 4

/-- Vendor enum `esp_mqtt_event_id_t`. -/
def MQTT_EVENT_PUBLISHED : Int := 5

/-- Vendor enum `esp_mqtt_event_id_t`. -/
def MQTT_EVENT_DATA : Int := 6

/-- Vendor constant `ESP_OK`. -/
def ESP_OK : Int := 0

/-- Source line 19. -/
def TAG_MQTT : String := "[MQTT HANDLER]"

/-- Source line 21. -/
def MQTT_BROKER_URI : String := "mqtt://broker.hivemq.com"

/-- Source line 22. -/
def MQTT_TOPIC : String := "/__GK__/hello"

/-- The bytes of a C string literal, without its terminating NUL. -/
def cstr (s : String) : List Nat :=
  s.toList.map Char.toNat

/-- The fields of the vendor struct `esp_mqtt_event_t` the callback can read.
`data` and `topic` are `char *` pointers: `data i` is the byte `event->data[i]`
in memory, at and beyond the `data_len` bytes of the payload; the vendor client
does not terminate either buffer with a NUL. -/
structure esp_mqtt_event_t where
  event_id : Int
  client : Nat
  data : Nat → Nat
  data_len : Int
  topic : Nat → Nat
  topic_len : Int
  msg_id : Int

/-- The payload of the received message: the first `data_len` bytes at `event->data`. -/
def payload (event : esp_mqtt_event_t) : List Nat :=
  (List.range event.data_len.toNat).map event.data

/-- The topic of the received message: the first `topic_len` bytes at `event->topic`. -/
def receivedTopic (event : esp_mqtt_event_t) : List Nat :=
  (List.range event.topic_len.toNat).map event.topic

/-- C `strcmp(s, lit)` for a string literal `lit`, given by its bytes before the
terminating NUL: the bytes at `s` are compared with those of the literal one by
one up to the first difference or the first NUL; the result is the difference of
the two bytes where the comparison stops (0 when the strings are equal). -/
def strcmp (s : Nat → Nat) : List Nat → Int
  | [] => (s 0 : Int) - 0
  | c :: cs =>
    if s 0 ≠ c then (s 0 : Int) - (c : Int)
    else if c = 0 then 0
    else strcmp (fun i => s (i + 1)) cs

/-- The vendor calls `mqtt_event_handler_cb` makes. -/
inductive MqttCall
  | esp_mqtt_client_subscribe (client : Nat) (topic : String) (qos : Int)
  | esp_mqtt_client_publish (client : Nat) (topic : String) (data : String)
      (len : Int) (qos : Int) (retain : Int)
  | ESP_LOGI (tag : String) (msg : String)
  deriving DecidableEq, Repr

/-- Source lines 139-173.  The `switch` on `event->event_id` has pairwise different
case labels, so it is the chain of tests below; the value returned is `ESP_OK`. -/
def mqtt_event_handler_cb (event : esp_mqtt_event_t) : Int × List MqttCall :=
  if event.event_id = MQTT_EVENT_CONNECTED then
    (ESP_OK,
      [MqttCall.ESP_LOGI TAG_MQTT "MQTT_EVENT_CONNECTED",
       MqttCall.esp_mqtt_client_subscribe event.client MQTT_TOPIC 0,
       MqttCall.ESP_LOGI TAG_MQTT "sent subscribe successful, msg_id=%d"])
  else if event.event_id = MQTT_EVENT_DISCONNECTED then
    (ESP_OK, [MqttCall.ESP_LOGI TAG_MQTT "MQTT_EVENT_DISCONNECTED"])
  else if event.event_id = MQTT_EVENT_SUBSCRIBED then
    (ESP_OK, [MqttCall.ESP_LOGI TAG_MQTT "MQTT_EVENT_SUBSCRIBED, msg_id=%d"])
  else if event.event_id = MQTT_EVENT_PUBLISHED then
    (ESP_OK, [MqttCall.ESP_LOGI TAG_MQTT "MQTT_EVENT_PUBLISHED, msg_id=%d"])
  else if event.event_id = MQTT_EVENT_DATA then
    if strcmp event.data (cstr "ping") = 0 then
      (ESP_OK,
        [MqttCall.ESP_LOGI TAG_MQTT "MQTT_EVENT_DATA",
         MqttCall.ESP_LOGI TAG_MQTT "ping received from topic",
         MqttCall.esp_mqtt_client_publish event.client MQTT_TOPIC "pong" 0 1 0,
         MqttCall.ESP_LOGI TAG_MQTT "Sent pong : %d"])
    else
      (ESP_OK, [MqttCall.ESP_LOGI TAG_MQTT "MQTT_EVENT_DATA"])
  else
    (ESP_OK, [])

/-- Source lines 179-182: the handler registered with the client logs the event
and hands it to `mqtt_event_handler_cb`. -/
def MQTT_Handler.event_handler (event : esp_mqtt_event_t) : List MqttCall :=
  MqttCall.ESP_LOGI TAG_MQTT "Event detected, base : %s, event_id : %d" ::
    (mqtt_event_handler_cb event).2

/-- The call is an `esp_mqtt_client_publish`. -/
def isPublish : MqttCall → Bool
  | MqttCall.esp_mqtt_client_publish _ _ _ _ _ _ => true
  | _ => false

/-- The call is an `esp_mqtt_client_subscribe`. -/
def isSubscribe : MqttCall → Bool
  | MqttCall.esp_mqtt_client_subscribe _ _ _ => true
  | _ => false

/-- The publish calls made by the callback for an event. -/
def publishes (event : esp_mqtt_event_t) : List MqttCall :=
  (mqtt_event_handler_cb event).2.filter isPublish

/-- The subscribe calls made by the callback for an event. -/
def subscribes (event : esp_mqtt_event_t) : List MqttCall :=
  (mqtt_event_handler_cb event).2.filter isSubscribe

/-- Memory holding the given bytes from offset 0 on and `fill` at every later offset. -/
def memOf (bytes : List Nat) (fill : Nat) : Nat → Nat :=
  fun i => bytes.getD i fill

/-- The topic argument of a subscribe or publish call. -/
def topicArg : MqttCall → Option String
  | MqttCall.esp_mqtt_client_subscribe _ topic _ => some topic
  | MqttCall.esp_mqtt_client_publish _ topic _ _ _ _ => some topic
  | MqttCall.ESP_LOGI _ _ => none

/-- The reply of source line 165: `"pong"` to `MQTT_TOPIC`, length 0 (the vendor
client then takes the length of the string), QoS 1, not retained. -/
def pongCall (client : Nat) : MqttCall :=
  MqttCall.esp_mqtt_client_publish client MQTT_TOPIC "pong" 0 1 0

/-- A data event on the subscribed topic whose payload is the four bytes `ping`;
the receive buffer holds the byte `!` (33), left by an earlier longer message,
right after the payload. -/
def pingInStaleBuffer : esp_mqtt_event_t :=
  { event_id := MQTT_EVENT_DATA
    client := 1
    data := memOf [112, 105, 110, 103, 33] 0
    data_len := 4
    topic := memOf (cstr MQTT_TOPIC) 0
    topic_len := 13
    msg_id := 0 }

/-- A data event on the subscribed topic whose payload is the five bytes `ping`
and NUL. -/
def pingNulPayload : esp_mqtt_event_t :=
  { event_id := MQTT_EVENT_DATA
    client := 1
    data := memOf [112, 105, 110, 103, 0] 7
    data_len := 5
    topic := memOf (cstr MQTT_TOPIC) 0
    topic_len := 13
    msg_id := 0 }

/-- A data event on the subscribed topic whose payload is the three bytes `pin`;
the receive buffer holds `g` and NUL after it. -/
def pinPayload : esp_mqtt_event_t :=
  { event_id := MQTT_EVENT_DATA
    client := 1
    data := memOf [112, 105, 110, 103, 0] 7
    data_len := 3
    topic := memOf (cstr MQTT_TOPIC) 0
    topic_len := 13
    msg_id := 0 }

/-- A data event on the subscribed topic with an empty payload; the receive buffer
holds `ping` and NUL at `event->data`. -/
def emptyPayload : esp_mqtt_event_t :=
  { event_id := MQTT_EVENT_DATA
    client := 1
    data := memOf [112, 105, 110, 103, 0] 7
    data_len := 0
    topic := memOf (cstr MQTT_TOPIC) 0
    topic_len := 13
    msg_id := 0 }

/-- A data event on the subscribed topic whose data is `ping` followed by NUL. -/
def pingOnFixedTopic : esp_mqtt_event_t :=
  { event_id := MQTT_EVENT_DATA
    client := 1
    data := memOf [112, 105, 110, 103, 0] 0
    data_len := 4
    topic := memOf (cstr MQTT_TOPIC) 0
    topic_len := 13
    msg_id := 0 }

/-- A connected event of client 5. -/
def connectedEvent : esp_mqtt_event_t :=
  { event_id := MQTT_EVENT_CONNECTED
    client := 5
    data := memOf [] 0
    data_len := 0
    topic := memOf [] 0
    topic_len := 0
    msg_id := 0 }

/-! ## Boot: `app_main`, `WIFI_Handler::init_sta`, `MQTT_Handler::start` -/

/-- Vendor constant (`ESP_ERR_NVS_BASE + 0x0d`). -/
def ESP_ERR_NVS_NO_FREE_PAGES : Int := 0x110d

/-- Vendor constant (`ESP_ERR_NVS_BASE + 0x10`). -/
def ESP_ERR_NVS_NEW_VERSION_FOUND : Int := 0x1110

/-- Vendor constant. -/
def ESP_EVENT_ANY_ID : Int := -1

/-- Vendor enum `wifi_mode_t`. -/
def WIFI_MODE_STA : Int := 1

/-- Source line 12. -/
def WIFI_SSID : String := "rogo"

/-- Source line 13. -/
def WIFI_PASSWORD : String := "123456789"

/-- The vendor calls of the boot path, with the arguments the source passes.
`esp_mqtt_client_start` is the vendor call that starts (connects) a client. -/
inductive BootCall
  | nvs_flash_init
  | nvs_flash_erase
  | xEventGroupCreate
  | esp_netif_init
  | esp_event_loop_create_default
  | esp_netif_create_default_wifi_sta
  | esp_wifi_init
  | esp_event_handler_instance_register (event_base : esp_event_base_t) (event_id : Int)
  | esp_wifi_set_mode (mode : Int)
  | esp_wifi_set_config (ssid : String) (password : String)
  | esp_wifi_start
  | xEventGroupWaitBits (bitsToWaitFor : Nat)
  | esp_event_handler_instance_unregister (event_base : esp_event_base_t) (event_id : Int)
  | vEventGroupDelete
  | esp_mqtt_client_init (uri : String)
  | esp_mqtt_client_register_event (client : Nat) (event_id : Int)
  | esp_mqtt_client_start (client : Nat)
  | ESP_LOGI (tag : String) (msg : String)
  | ESP_LOGE (tag : String) (msg : String)
  | abort
  deriving DecidableEq, Repr

/-- What a vendor call gives back: nothing, an `esp_err_t`, a pointer or handle
(0 is `NULL`), or event bits. -/
inductive Ret
  | void
  | esp_err (rc : Int)
  | handle (p : Nat)
  | bits (b : Nat)
  deriving DecidableEq, Repr

/-- One entry of the boot trace: the call made and what it returned. -/
structure Step where
  call : BootCall
  ret : Ret
  deriving DecidableEq, Repr

/-- How a piece of the boot path ends: it returns a value, the program aborts, or
it stays blocked in a wait that never returns. -/
inductive Outcome (α : Type)
  | returned (a : α)
  | aborted
  | blocked
  deriving DecidableEq, Repr

/-- A run of a piece of the boot path: the calls made, in order, and how it ends. -/
structure Boot (α : Type) where
  trace : List Step
  outcome : Outcome α

/-- Sequencing: the second part runs only when the first one returns. -/
def Boot.bind {α β : Type} (m : Boot α) (f : α → Boot β) : Boot β :=
  match m.outcome with
  | Outcome.returned a => { trace := m.trace ++ (f a).trace, outcome := (f a).outcome }
  | Outcome.aborted => { trace := m.trace, outcome := Outcome.aborted }
  | Outcome.blocked => { trace := m.trace, outcome := Outcome.blocked }

instance : Monad Boot where
  pure a := { trace := [], outcome := Outcome.returned a }
  bind := Boot.bind

/-- The results the vendor stack gives to the calls of the boot path, one for each
call site.  `xEventGroupWaitBits` is `none` when the wait (timeout `portMAX_DELAY`)
never returns. -/
structure VendorResults where
  nvs_flash_init_first : Int
  nvs_flash_erase : Int
  nvs_flash_init_second : Int
  xEventGroupCreate : Nat
  esp_netif_init : Int
  esp_event_loop_create_default : Int
  esp_netif_create_default_wifi_sta : Nat
  esp_wifi_init : Int
  register_wifi : Int
  register_ip : Int
  esp_wifi_set_mode : Int
  esp_wifi_set_config : Int
  esp_wifi_start : Int
  xEventGroupWaitBits : Option Nat
  unregister_ip : Int
  unregister_wifi : Int
  esp_mqtt_client_init : Nat
  esp_mqtt_client_register_event : Int

/-- A vendor call returning an `esp_err_t`. -/
def callErr (c : BootCall) (rc : Int) : Boot Int :=
  { trace := [{ call := c, ret := Ret.esp_err rc }], outcome := Outcome.returned rc }

/-- A vendor call returning a pointer or handle. -/
def callHandle (c : BootCall) (p : Nat) : Boot Nat :=
  { trace := [{ call := c, ret := Ret.handle p }], outcome := Outcome.returned p }

/-- A vendor call returning nothing (or whose result plays no role). -/
def callVoid (c : BootCall) : Boot Unit :=
  { trace := [{ call := c, ret := Ret.void }], outcome := Outcome.returned () }

/-- Modelled from the spec: the vendor macro `ESP_ERROR_CHECK` is not in the source
tree; the spec calls it an abort-on-error check: a value other than `ESP_OK` aborts
the program. -/
def ESP_ERROR_CHECK (rc : Int) : Boot Unit :=
  if rc = ESP_OK then pure ()
  else { trace := [{ call := BootCall.abort, ret := Ret.void }], outcome := Outcome.aborted }

/-- The blocking wait of source lines 109-113. -/
def waitBits (mask : Nat) (res : Option Nat) : Boot Nat :=
  match res with
  | some b =>
    { trace := [{ call := BootCall.xEventGroupWaitBits mask, ret := Ret.bits b }],
      outcome := Outcome.returned b }
  | none =>
    { trace := [{ call := BootCall.xEventGroupWaitBits mask, ret := Ret.void }],
      outcome := Outcome.blocked }

/-- Source lines 66-136. -/
def WIFI_Handler.init_sta (r : VendorResults) : Boot Unit := do
  let _ ← callHandle BootCall.xEventGroupCreate r.xEventGroupCreate
  ESP_ERROR_CHECK (← callErr BootCall.esp_netif_init r.esp_netif_init)
  ESP_ERROR_CHECK (← callErr BootCall.esp_event_loop_create_default
    r.esp_event_loop_create_default)
  let _ ← callHandle BootCall.esp_netif_create_default_wifi_sta
    r.esp_netif_create_default_wifi_sta
  ESP_ERROR_CHECK (← callErr BootCall.esp_wifi_init r.esp_wifi_init)
  ESP_ERROR_CHECK (← callErr
    (BootCall.esp_event_handler_instance_register esp_event_base_t.WIFI_EVENT ESP_EVENT_ANY_ID)
    r.register_wifi)
  ESP_ERROR_CHECK (← callErr
    (BootCall.esp_event_handler_instance_register esp_event_base_t.IP_EVENT IP_EVENT_STA_GOT_IP)
    r.register_ip)
  ESP_ERROR_CHECK (← callErr (BootCall.esp_wifi_set_mode WIFI_MODE_STA) r.esp_wifi_set_mode)
  ESP_ERROR_CHECK (← callErr (BootCall.esp_wifi_set_config WIFI_SSID WIFI_PASSWORD)
    r.esp_wifi_set_config)
  ESP_ERROR_CHECK (← callErr BootCall.esp_wifi_start r.esp_wifi_start)
  callVoid (BootCall.ESP_LOGI TAG_WIFI "wifi_init_sta finished.")
  let bits ← waitBits (WIFI_CONNECTED_BIT ||| WIFI_FAIL_BIT) r.xEventGroupWaitBits
  (if bits &&& WIFI_CONNECTED_BIT ≠ 0 then
    callVoid (BootCall.ESP_LOGI TAG_WIFI "connected to ap SSID:%s password:%s")
  else if bits &&& WIFI_FAIL_BIT ≠ 0 then
    callVoid (BootCall.ESP_LOGI TAG_WIFI "Failed to connect to SSID:%s, password:%s")
  else
    callVoid (BootCall.ESP_LOGE TAG_WIFI "UNEXPECTED EVENT"))
  ESP_ERROR_CHECK (← callErr
    (BootCall.esp_event_handler_instance_unregister esp_event_base_t.IP_EVENT IP_EVENT_STA_GOT_IP)
    r.unregister_ip)
  ESP_ERROR_CHECK (← callErr
    (BootCall.esp_event_handler_instance_unregister esp_event_base_t.WIFI_EVENT ESP_EVENT_ANY_ID)
    r.unregister_wifi)
  callVoid BootCall.vEventGroupDelete

/-- Source lines 184-195. -/
def MQTT_Handler.start (r : VendorResults) : Boot Unit := do
  let client ← callHandle (BootCall.esp_mqtt_client_init MQTT_BROKER_URI) r.esp_mqtt_client_init
  let _ ← callErr (BootCall.esp_mqtt_client_register_event client ESP_EVENT_ANY_ID)
    r.esp_mqtt_client_register_event
  pure ()

/-- Source lines 201-217.  The constructor `WIFI_Handler()` only resets
`s_retry_num` (see `initialState`) and makes no vendor call. -/
def app_main (r : VendorResults) : Boot Unit := do
  let ret ← callErr BootCall.nvs_flash_init r.nvs_flash_init_first
  let ret ←
    (if ret = ESP_ERR_NVS_NO_FREE_PAGES ∨ ret = ESP_ERR_NVS_NEW_VERSION_FOUND then
      (do
        ESP_ERROR_CHECK (← callErr BootCall.nvs_flash_erase r.nvs_flash_erase)
        callErr BootCall.nvs_flash_init r.nvs_flash_init_second)
    else
      pure ret)
  ESP_ERROR_CHECK ret
  callVoid (BootCall.ESP_LOGI TAG_WIFI "Lauching wifi connection")
  WIFI_Handler.init_sta r
  MQTT_Handler.start r

/-- Results with which every vendor call succeeds and the wait returns `bits`. -/
def allOk (bits : Nat) : VendorResults :=
  { nvs_flash_init_first := ESP_OK
    nvs_flash_erase := ESP_OK
    nvs_flash_init_second := ESP_OK
    xEventGroupCreate := 1
    esp_netif_init := ESP_OK
    esp_event_loop_create_default := ESP_OK
    esp_netif_create_default_wifi_sta := 1
    esp_wifi_init := ESP_OK
    register_wifi := ESP_OK
    register_ip := ESP_OK
    esp_wifi_set_mode := ESP_OK
    esp_wifi_set_config := ESP_OK
    esp_wifi_start := ESP_OK
    xEventGroupWaitBits := some bits
    unregister_ip := ESP_OK
    unregister_wifi := ESP_OK
    esp_mqtt_client_init := 1
    esp_mqtt_client_register_event := ESP_OK }

/-- The calls of a run, without their results. -/
def callsOf {α : Type} (b : Boot α) : List BootCall :=
  b.trace.map Step.call

/-- The trace entry left by `abort()`. -/
def abortStep : Step :=
  { call := BootCall.abort, ret := Ret.void }

/-- The vendor calls the source writes as the argument of `ESP_ERROR_CHECK`. -/
def isChecked : BootCall → Bool
  | BootCall.nvs_flash_erase => true
  | BootCall.esp_netif_init => true
  | BootCall.esp_event_loop_create_default => true
  | BootCall.esp_wifi_init => true
  | BootCall.esp_event_handler_instance_register _ _ => true
  | BootCall.esp_wifi_set_mode _ => true
  | BootCall.esp_wifi_set_config _ _ => true
  | BootCall.esp_wifi_start => true
  | BootCall.esp_event_handler_instance_unregister _ _ => true
  | _ => false

/-- The step is a failure the boot treats as fatal: a checked call that returns a
value other than `ESP_OK`, or an `nvs_flash_init` that returns a value other than
`ESP_OK`, unless it is the first call of the boot (`pre` is empty) and returns one
of the two values that make `app_main` erase the flash and try again. -/
def fatalAt (pre : List Step) (s : Step) : Bool :=
  match s.ret with
  | Ret.esp_err rc =>
    decide (rc ≠ ESP_OK) &&
      (isChecked s.call ||
        (decide (s.call = BootCall.nvs_flash_init) &&
          (!pre.isEmpty ||
            (decide (rc ≠ ESP_ERR_NVS_NO_FREE_PAGES) &&
              decide (rc ≠ ESP_ERR_NVS_NEW_VERSION_FOUND)))))
  | _ => false

/-- Every fatal failure of a trace (that follows the steps `pre`) is followed by
`abort` and nothing else. -/
def fatalOkFrom (pre : List Step) : List Step → Bool
  | [] => true
  | s :: post =>
    (if fatalAt pre s = true then decide (post = [abortStep]) else true) &&
      fatalOkFrom (pre ++ [s]) post

/-- The call is an `esp_mqtt_client_start`. -/
def isMqttStart : BootCall → Bool
  | BootCall.esp_mqtt_client_start _ => true
  | _ => false

/-- The properties of a boot run checked on every path, for a run that follows the
steps `pre`: fatal failures end the trace with `abort`, the run is aborted exactly
when `abort` is in its trace, and no call starts the MQTT client. -/
def bootCheckFrom (pre : List Step) (b : Boot Unit) : Bool :=
  fatalOkFrom pre b.trace &&
    (decide (b.outcome = Outcome.aborted) == b.trace.contains abortStep) &&
    !(b.trace.any (fun s => isMqttStart s.call))

/-! ## Lemmas on the Wi-Fi handler -/

theorem retryConnects_nil (st : WifiState) : retryConnects st [] = 0 := rfl

theorem retryConnects_cons (st : WifiState) (e : WifiEvent) (es : List WifiEvent) :
    retryConnects st (e :: es) =
      (if isDisconnect e then connectCalls (event_handler st e.event_base e.event_id).2 else 0)
        + retryConnects (event_handler st e.event_base e.event_id).1 es := by
  unfold retryConnects
  simp only [responses]
  by_cases h : isDisconnect e = true
  · simp [List.filter_cons, h]
  · simp [List.filter_cons, h]

theorem event_handler_disconnect (st : WifiState) :
    event_handler st esp_event_base_t.WIFI_EVENT WIFI_EVENT_STA_DISCONNECTED =
      if st.s_retry_num < 3 then
        ({ st with s_retry_num := st.s_retry_num + 1 },
          [WifiCall.esp_wifi_connect,
           WifiCall.ESP_LOGI TAG_WIFI "retry to connect to the AP",
           WifiCall.ESP_LOGI TAG_WIFI "connect to the AP fail"])
      else
        ({ st with s_wifi_event_group := st.s_wifi_event_group ||| WIFI_FAIL_BIT },
          [WifiCall.xEventGroupSetBits WIFI_FAIL_BIT,
           WifiCall.ESP_LOGI TAG_WIFI "connect to the AP fail"]) := by
  simp [event_handler, WIFI_EVENT_STA_START, WIFI_EVENT_STA_DISCONNECTED]

theorem isDisconnect_iff (e : WifiEvent) :
    isDisconnect e = true ↔ e = disconnectEv := by
  cases e with
  | mk b i => simp [isDisconnect, disconnectEv]

theorem isGotIp_iff (e : WifiEvent) :
    isGotIp e = true ↔ e = gotIpEv := by
  cases e with
  | mk b i => simp [isGotIp, gotIpEv]

theorem event_handler_gotIp (st : WifiState) :
    event_handler st esp_event_base_t.IP_EVENT IP_EVENT_STA_GOT_IP =
      ({ s_retry_num := 0,
         s_wifi_event_group := st.s_wifi_event_group ||| WIFI_CONNECTED_BIT },
        [WifiCall.ESP_LOGI TAG_WIFI "got ip:",
         WifiCall.xEventGroupSetBits WIFI_CONNECTED_BIT]) := by
  simp [event_handler]

theorem event_handler_staStart (st : WifiState) :
    event_handler st esp_event_base_t.WIFI_EVENT WIFI_EVENT_STA_START =
      (st, [WifiCall.esp_wifi_connect]) := by
  simp [event_handler]

/-- An event that is none of the three handled ones changes nothing and makes no call. -/
theorem event_handler_unhandled (st : WifiState) (e : WifiEvent)
    (h1 : isStaStart e = false) (h2 : isDisconnect e = false) (h3 : isGotIp e = false) :
    event_handler st e.event_base e.event_id = (st, []) := by
  cases e with
  | mk b i =>
    simp only [isStaStart, isDisconnect, isGotIp, Bool.and_eq_false_iff,
      decide_eq_false_iff_not] at h1 h2 h3
    unfold event_handler
    split_ifs with c1 c2 c3 c4
    · exact absurd c1.2 (by rcases h1 with h | h; exact absurd c1.1 h; exact h)
    · exact absurd c2.2 (by rcases h2 with h | h; exact absurd c2.1 h; exact h)
    · exact absurd c2.2 (by rcases h2 with h | h; exact absurd c2.1 h; exact h)
    · exact absurd c4.2 (by rcases h3 with h | h; exact absurd c4.1 h; exact h)
    · rfl

/-- Every event is a start, a disconnect, a got-IP or an unhandled event. -/
theorem event_cases (e : WifiEvent) :
    e = disconnectEv ∨ e = gotIpEv ∨
      (isDisconnect e = false ∧ isGotIp e = false) := by
  by_cases h2 : isDisconnect e = true
  · exact Or.inl ((isDisconnect_iff e).1 h2)
  · by_cases h3 : isGotIp e = true
    · exact Or.inr (Or.inl ((isGotIp_iff e).1 h3))
    · exact Or.inr (Or.inr ⟨by simpa using h2, by simpa using h3⟩)

/-- Outside disconnect and got-IP events the state is unchanged. -/
theorem event_handler_state_other (st : WifiState) (e : WifiEvent)
    (h2 : isDisconnect e = false) (h3 : isGotIp e = false) :
    (event_handler st e.event_base e.event_id).1 = st := by
  by_cases h1 : isStaStart e = true
  · cases e with
    | mk b i =>
      simp only [isStaStart, Bool.and_eq_true, decide_eq_true_eq] at h1
      obtain ⟨hb, hi⟩ := h1
      subst hb; subst hi
      simp [event_handler_staStart]
  · rw [event_handler_unhandled st e (by simpa using h1) h2 h3]

theorem disconnects_cons (e : WifiEvent) (es : List WifiEvent) :
    disconnects (e :: es) = disconnects es + (if isDisconnect e = true then 1 else 0) := by
  simp [disconnects, List.countP_cons]

/-- Without got-IP events, the retries answer the first `3 - s_retry_num` disconnects. -/
theorem retryConnects_noGotIp (evs : List WifiEvent) :
    ∀ st : WifiState, (∀ e ∈ evs, isGotIp e = false) →
      retryConnects st evs = min (disconnects evs) (3 - st.s_retry_num).toNat := by
  induction evs with
  | nil => intro st _; simp [retryConnects_nil, disconnects]
  | cons e es ih =>
    intro st h
    have hes : ∀ x ∈ es, isGotIp x = false := fun x hx => h x (List.mem_cons_of_mem _ hx)
    have he : isGotIp e = false := h e (List.mem_cons_self _ _)
    rw [retryConnects_cons, disconnects_cons]
    rcases event_cases e with rfl | rfl | ⟨h2, _⟩
    · have hd : isDisconnect disconnectEv = true := (isDisconnect_iff _).2 rfl
      simp only [hd, if_true]
      have hev : event_handler st disconnectEv.event_base disconnectEv.event_id =
          event_handler st esp_event_base_t.WIFI_EVENT WIFI_EVENT_STA_DISCONNECTED := rfl
      rw [hev, event_handler_disconnect]
      by_cases c : st.s_retry_num < 3
      · simp only [c, if_true]
        rw [ih _ hes]
        simp only [connectCalls]
        have : List.count WifiCall.esp_wifi_connect
            [WifiCall.esp_wifi_connect,
             WifiCall.ESP_LOGI TAG_WIFI "retry to connect to the AP",
             WifiCall.ESP_LOGI TAG_WIFI "connect to the AP fail"] = 1 := by decide
        rw [this]
        omega
      · simp only [c, if_false]
        rw [ih _ hes]
        simp only [connectCalls]
        have : List.count WifiCall.esp_wifi_connect
            [WifiCall.xEventGroupSetBits WIFI_FAIL_BIT,
             WifiCall.ESP_LOGI TAG_WIFI "connect to the AP fail"] = 0 := by decide
        rw [this]
        omega
    · exact absurd ((isGotIp_iff _).2 rfl) (by simp [he])
    · simp only [h2, Bool.false_eq_true, if_false]
      rw [event_handler_state_other st e h2 he, ih _ hes]
      simp

theorem isStaStart_iff (e : WifiEvent) :
    isStaStart e = true ↔ e = staStartEv := by
  cases e with
  | mk b i => simp [isStaStart, staStartEv]

/-- The four kinds of event `event_handler` tells apart. -/
theorem event_cases4 (e : WifiEvent) :
    e = staStartEv ∨ e = disconnectEv ∨ e = gotIpEv ∨
      (isStaStart e = false ∧ isDisconnect e = false ∧ isGotIp e = false) := by
  by_cases h1 : isStaStart e = true
  · exact Or.inl ((isStaStart_iff e).1 h1)
  · rcases event_cases e with h | h | ⟨h2, h3⟩
    · exact Or.inr (Or.inl h)
    · exact Or.inr (Or.inr (Or.inl h))
    · exact Or.inr (Or.inr (Or.inr ⟨by simpa using h1, h2, h3⟩))

theorem handler_at_disconnectEv (st : WifiState) :
    event_handler st disconnectEv.event_base disconnectEv.event_id =
      if st.s_retry_num < 3 then
        ({ st with s_retry_num := st.s_retry_num + 1 },
          [WifiCall.esp_wifi_connect,
           WifiCall.ESP_LOGI TAG_WIFI "retry to connect to the AP",
           WifiCall.ESP_LOGI TAG_WIFI "connect to the AP fail"])
      else
        ({ st with s_wifi_event_group := st.s_wifi_event_group ||| WIFI_FAIL_BIT },
          [WifiCall.xEventGroupSetBits WIFI_FAIL_BIT,
           WifiCall.ESP_LOGI TAG_WIFI "connect to the AP fail"]) :=
  event_handler_disconnect st

theorem handler_at_gotIpEv (st : WifiState) :
    event_handler st gotIpEv.event_base gotIpEv.event_id =
      ({ s_retry_num := 0,
         s_wifi_event_group := st.s_wifi_event_group ||| WIFI_CONNECTED_BIT },
        [WifiCall.ESP_LOGI TAG_WIFI "got ip:",
         WifiCall.xEventGroupSetBits WIFI_CONNECTED_BIT]) :=
  event_handler_gotIp st

theorem handler_at_staStartEv (st : WifiState) :
    event_handler st staStartEv.event_base staStartEv.event_id =
      (st, [WifiCall.esp_wifi_connect]) :=
  event_handler_staStart st

theorem deliver_append (a b : List WifiEvent) :
    ∀ st : WifiState, deliver st (a ++ b) = deliver (deliver st a) b := by
  induction a with
  | nil => intro st; rfl
  | cons e es ih => intro st; simp [deliver, ih]

/-- One step keeps the counter between 0 and 3. -/
theorem event_handler_bounds (st : WifiState) (e : WifiEvent)
    (h : 0 ≤ st.s_retry_num ∧ st.s_retry_num ≤ 3) :
    0 ≤ (event_handler st e.event_base e.event_id).1.s_retry_num ∧
      (event_handler st e.event_base e.event_id).1.s_retry_num ≤ 3 := by
  rcases event_cases4 e with rfl | rfl | rfl | ⟨h1, h2, h3⟩
  · rw [handler_at_staStartEv]; exact h
  · rw [handler_at_disconnectEv]
    by_cases c : st.s_retry_num < 3
    · simp only [c, if_true]; constructor <;> omega
    · simp only [c, if_false]; exact h
  · rw [handler_at_gotIpEv]; simp
  · rw [event_handler_unhandled st e h1 h2 h3]; exact h

theorem deliver_bounds (evs : List WifiEvent) :
    ∀ st : WifiState, (0 ≤ st.s_retry_num ∧ st.s_retry_num ≤ 3) →
      0 ≤ (deliver st evs).s_retry_num ∧ (deliver st evs).s_retry_num ≤ 3 := by
  induction evs with
  | nil => intro st h; exact h
  | cons e es ih => intro st h; exact ih _ (event_handler_bounds st e h)

/-- One step never clears a bit of the event group. -/
theorem event_handler_keeps_bits (st : WifiState) (e : WifiEvent) (i : Nat)
    (h : st.s_wifi_event_group.testBit i = true) :
    (event_handler st e.event_base e.event_id).1.s_wifi_event_group.testBit i = true := by
  rcases event_cases4 e with rfl | rfl | rfl | ⟨h1, h2, h3⟩
  · rw [handler_at_staStartEv]; exact h
  · rw [handler_at_disconnectEv]
    by_cases c : st.s_retry_num < 3
    · simp only [c, if_true]; exact h
    · simp only [c, if_false, Nat.testBit_lor, h, Bool.true_or]
  · rw [handler_at_gotIpEv]; simp only [Nat.testBit_lor, h, Bool.true_or]
  · rw [event_handler_unhandled st e h1 h2 h3]; exact h

theorem deliver_keeps_bits (evs : List WifiEvent) (i : Nat) :
    ∀ st : WifiState, st.s_wifi_event_group.testBit i = true →
      (deliver st evs).s_wifi_event_group.testBit i = true := by
  induction evs with
  | nil => intro st h; exact h
  | cons e es ih => intro st h; exact ih _ (event_handler_keeps_bits st e i h)

/-- Without got-IP events the counter climbs by one a disconnect, up to 3. -/
theorem deliver_retry_noGotIp (evs : List WifiEvent) :
    ∀ st : WifiState, (∀ e ∈ evs, isGotIp e = false) →
      (deliver st evs).s_retry_num =
        if st.s_retry_num < 3 then min (st.s_retry_num + (disconnects evs : Int)) 3
        else st.s_retry_num := by
  induction evs with
  | nil =>
    intro st _
    simp only [deliver, disconnects, List.countP_nil, Nat.cast_zero, add_zero]
    split_ifs with c
    · omega
    · rfl
  | cons e es ih =>
    intro st h
    have hes : ∀ x ∈ es, isGotIp x = false := fun x hx => h x (List.mem_cons_of_mem _ hx)
    have he : isGotIp e = false := h e (List.mem_cons_self _ _)
    simp only [deliver]
    rw [ih _ hes, disconnects_cons]
    rcases event_cases e with rfl | rfl | ⟨h2, _⟩
    · have hd : isDisconnect disconnectEv = true := (isDisconnect_iff _).2 rfl
      rw [handler_at_disconnectEv]
      simp only [hd, if_true]
      by_cases c : st.s_retry_num < 3
      · simp only [c, if_true]
        split_ifs with c2
        · push_cast; omega
        · push_cast; omega
      · simp only [c, if_false]
    · exact absurd ((isGotIp_iff _).2 rfl) (by simp [he])
    · rw [event_handler_state_other st e h2 he]
      simp [h2]

/-- Without got-IP events the failure bit is set once more disconnects have come
than retries were left. -/
theorem deliver_failBit_noGotIp (evs : List WifiEvent) :
    ∀ st : WifiState, (∀ e ∈ evs, isGotIp e = false) →
      failBit (deliver st evs).s_wifi_event_group =
        (failBit st.s_wifi_event_group ||
          decide ((3 - st.s_retry_num).toNat < disconnects evs)) := by
  induction evs with
  | nil => intro st _; simp [deliver, disconnects]
  | cons e es ih =>
    intro st h
    have hes : ∀ x ∈ es, isGotIp x = false := fun x hx => h x (List.mem_cons_of_mem _ hx)
    have he : isGotIp e = false := h e (List.mem_cons_self _ _)
    simp only [deliver]
    rw [ih _ hes, disconnects_cons]
    rcases event_cases e with rfl | rfl | ⟨h2, _⟩
    · have hd : isDisconnect disconnectEv = true := (isDisconnect_iff _).2 rfl
      rw [handler_at_disconnectEv]
      simp only [hd, if_true]
      by_cases c : st.s_retry_num < 3
      · simp only [c, if_true]
        congr 1
        apply decide_eq_decide.2
        omega
      · simp only [c, if_false, failBit, Nat.testBit_lor]
        have hb : WIFI_FAIL_BIT.testBit 1 = true := by decide
        have h0 : (3 - st.s_retry_num).toNat = 0 := by omega
        simp [hb, h0]
    · exact absurd ((isGotIp_iff _).2 rfl) (by simp [he])
    · rw [event_handler_state_other st e h2 he]
      simp [h2]

/-- The failure bit is requested exactly by a disconnect that finds no retry left. -/
theorem setsFail_iff (st : WifiState) (e : WifiEvent) :
    setsBits WIFI_FAIL_BIT (event_handler st e.event_base e.event_id).2 = true ↔
      (isDisconnect e = true ∧ 3 ≤ st.s_retry_num) := by
  rcases event_cases4 e with rfl | rfl | rfl | ⟨h1, h2, h3⟩
  · rw [handler_at_staStartEv]
    have : isDisconnect staStartEv = false := by decide
    simp [this]
    decide
  · rw [handler_at_disconnectEv]
    have hd : isDisconnect disconnectEv = true := (isDisconnect_iff _).2 rfl
    by_cases c : st.s_retry_num < 3
    · simp only [c, if_true, hd, true_and]
      constructor
      · intro hh; exact absurd hh (by decide)
      · intro hh; omega
    · simp only [c, if_false, hd, true_and]
      constructor
      · intro _; omega
      · intro _; decide
  · rw [handler_at_gotIpEv]
    have : isDisconnect gotIpEv = false := by decide
    simp [this]
    decide
  · rw [event_handler_unhandled st e h1 h2 h3]
    simp [h2, setsBits]

/-! ## Wi-Fi: the claims -/

/-- C1 (bounded Wi-Fi retry): from `s_retry_num = 0`, for every finite sequence of
events without a got-IP event, the number of `esp_wifi_connect` calls made in
response to disconnect events is `min d 3`, `d` being the number of disconnect
events of the sequence; it never exceeds 3. -/
theorem bounded_wifi_retry (st : WifiState) (evs : List WifiEvent)
    (h0 : st.s_retry_num = 0) (h : ∀ e ∈ evs, isGotIp e = false) :
    retryConnects st evs = min (disconnects evs) 3 ∧ retryConnects st evs ≤ 3 := by
  have key := retryConnects_noGotIp evs st h
  rw [h0] at key
  have h3 : (3 - (0 : Int)).toNat = 3 := by decide
  rw [h3] at key
  exact ⟨key, by rw [key]; exact Nat.min_le_right _ _⟩

/-- Witness of C1: a start, five disconnects and a foreign event give 3 retries. -/
theorem bounded_wifi_retry_witness :
    retryConnects initialState
        [staStartEv, disconnectEv, disconnectEv,
         { event_base := esp_event_base_t.other 7, event_id := 5 },
         disconnectEv, disconnectEv, disconnectEv] = 3 ∧
      disconnects
        [staStartEv, disconnectEv, disconnectEv,
         { event_base := esp_event_base_t.other 7, event_id := 5 },
         disconnectEv, disconnectEv, disconnectEv] = 5 := by
  have h := bounded_wifi_retry initialState
    [staStartEv, disconnectEv, disconnectEv,
     { event_base := esp_event_base_t.other 7, event_id := 5 },
     disconnectEv, disconnectEv, disconnectEv] rfl (by decide)
  have hd : disconnects
      [staStartEv, disconnectEv, disconnectEv,
       { event_base := esp_event_base_t.other 7, event_id := 5 },
       disconnectEv, disconnectEv, disconnectEv] = 5 := by decide
  rw [hd] at h
  exact ⟨h.1, hd⟩

/-- C4 (abandonment after the retries are used up): with `s_retry_num = 3` a
disconnect event makes no `esp_wifi_connect` call, leaves the counter at 3 and sets
`WIFI_FAIL_BIT`; with `s_retry_num < 3` it makes no `xEventGroupSetBits` call and
leaves the event bits as they were.  Hence, from `s_retry_num = 0` and without
got-IP events, the handler sets `WIFI_FAIL_BIT` in response to an event exactly
when that event is a disconnect preceded by at least 3 disconnects (the 4th and
later ones), such a disconnect is not retried, and a failure bit that was clear at
the start is set exactly once 4 disconnects have been delivered. -/
theorem abandon_after_retries (st : WifiState) (g : Nat) (pre : List WifiEvent)
    (e : WifiEvent) :
    (st.s_retry_num = 3 →
      connectCalls (event_handler st esp_event_base_t.WIFI_EVENT
          WIFI_EVENT_STA_DISCONNECTED).2 = 0 ∧
        (event_handler st esp_event_base_t.WIFI_EVENT
          WIFI_EVENT_STA_DISCONNECTED).1.s_retry_num = 3 ∧
        setsBits WIFI_FAIL_BIT (event_handler st esp_event_base_t.WIFI_EVENT
          WIFI_EVENT_STA_DISCONNECTED).2 = true ∧
        (event_handler st esp_event_base_t.WIFI_EVENT
          WIFI_EVENT_STA_DISCONNECTED).1.s_wifi_event_group =
            st.s_wifi_event_group ||| WIFI_FAIL_BIT ∧
        failBit (event_handler st esp_event_base_t.WIFI_EVENT
          WIFI_EVENT_STA_DISCONNECTED).1.s_wifi_event_group = true) ∧
    (st.s_retry_num < 3 →
      anySetBits (event_handler st esp_event_base_t.WIFI_EVENT
          WIFI_EVENT_STA_DISCONNECTED).2 = false ∧
        (event_handler st esp_event_base_t.WIFI_EVENT
          WIFI_EVENT_STA_DISCONNECTED).1.s_wifi_event_group = st.s_wifi_event_group) ∧
    ((∀ x ∈ pre ++ [e], isGotIp x = false) →
      (setsBits WIFI_FAIL_BIT
          (event_handler (deliver { s_retry_num := 0, s_wifi_event_group := g } pre)
            e.event_base e.event_id).2 = true ↔
        (isDisconnect e = true ∧ 3 ≤ disconnects pre)) ∧
      (isDisconnect e = true → 3 ≤ disconnects pre →
        connectCalls
          (event_handler (deliver { s_retry_num := 0, s_wifi_event_group := g } pre)
            e.event_base e.event_id).2 = 0) ∧
      (failBit g = false →
        (failBit (deliver { s_retry_num := 0, s_wifi_event_group := g }
            (pre ++ [e])).s_wifi_event_group = true ↔
          4 ≤ disconnects (pre ++ [e])))) := by
  refine ⟨?_, ?_, ?_⟩
  · intro h3
    rw [event_handler_disconnect]
    have c : ¬ st.s_retry_num < 3 := by omega
    rw [if_neg c]
    refine ⟨by simp [connectCalls], h3, by simp [setsBits], rfl, ?_⟩
    simp only [failBit, Nat.testBit_lor]
    have hb : WIFI_FAIL_BIT.testBit 1 = true := by decide
    simp [hb]
  · intro hlt
    rw [event_handler_disconnect, if_pos hlt]
    exact ⟨by simp [anySetBits], rfl⟩
  · intro hno
    have hpre : ∀ x ∈ pre, isGotIp x = false :=
      fun x hx => hno x (List.mem_append_left _ hx)
    have hr := deliver_retry_noGotIp pre { s_retry_num := 0, s_wifi_event_group := g } hpre
    simp only [show ((0 : Int) < 3) from by decide, if_true, zero_add] at hr
    refine ⟨?_, ?_, ?_⟩
    · rw [setsFail_iff, hr]
      constructor
      · rintro ⟨hd, hle⟩; exact ⟨hd, by omega⟩
      · rintro ⟨hd, hle⟩; exact ⟨hd, by omega⟩
    · intro hd hle
      rw [(isDisconnect_iff e).1 hd, handler_at_disconnectEv]
      have c : ¬ (deliver { s_retry_num := 0, s_wifi_event_group := g } pre).s_retry_num < 3 := by
        rw [hr]; omega
      simp only [c, if_false]
      decide
    · intro hg
      rw [deliver_failBit_noGotIp _ _ hno, hg]
      simp only [Bool.false_or, decide_eq_true_eq]
      have h3 : (3 - (0 : Int)).toNat = 3 := by decide
      rw [h3]
      omega

/-- Witness of C4: the state with the counter at 3, the state with the counter at
2, and the fourth disconnect of a run. -/
theorem abandon_after_retries_witness :
    connectCalls (event_handler { s_retry_num := 3, s_wifi_event_group := 0 }
        esp_event_base_t.WIFI_EVENT WIFI_EVENT_STA_DISCONNECTED).2 = 0 ∧
      anySetBits (event_handler { s_retry_num := 3, s_wifi_event_group := 0 }
        esp_event_base_t.WIFI_EVENT WIFI_EVENT_STA_DISCONNECTED).2 = true ∧
      setsBits WIFI_FAIL_BIT
        (event_handler (deliver { s_retry_num := 0, s_wifi_event_group := 0 }
          [disconnectEv, staStartEv, disconnectEv, disconnectEv])
          disconnectEv.event_base disconnectEv.event_id).2 = true ∧
      failBit (deliver { s_retry_num := 0, s_wifi_event_group := 0 }
        ([disconnectEv, staStartEv, disconnectEv, disconnectEv] ++
          [disconnectEv])).s_wifi_event_group = true := by
  have h := abandon_after_retries { s_retry_num := 3, s_wifi_event_group := 0 } 0
    [disconnectEv, staStartEv, disconnectEv, disconnectEv] disconnectEv
  have h4 := h.2.2 (by decide)
  exact ⟨(h.1 rfl).1, by decide, h4.1.2 ⟨by decide, by decide⟩,
    (h4.2.2 (by decide)).2 (by decide)⟩

/-- C9 (retry-counter invariant): from the constructor's `s_retry_num = 0`, after
every finite sequence of events the counter is between 0 and 3.  One event changes
the counter only in two ways: a disconnect that finds it below 3 adds 1 (and makes
one `esp_wifi_connect` call), a got-IP event resets it to 0; every other event
leaves it as it was.  An event that matches none of the three handled (base, id)
pairs leaves the counter and the event bits unchanged and makes no call at all. -/
theorem retry_counter_invariant (g : Nat) (evs : List WifiEvent) (st : WifiState)
    (e : WifiEvent) :
    (0 ≤ (deliver { s_retry_num := 0, s_wifi_event_group := g } evs).s_retry_num ∧
      (deliver { s_retry_num := 0, s_wifi_event_group := g } evs).s_retry_num ≤ 3) ∧
    ((event_handler st e.event_base e.event_id).1.s_retry_num =
      if isGotIp e = true then 0
      else if isDisconnect e = true ∧ st.s_retry_num < 3 then st.s_retry_num + 1
      else st.s_retry_num) ∧
    (isDisconnect e = true → st.s_retry_num < 3 →
      connectCalls (event_handler st e.event_base e.event_id).2 = 1) ∧
    (isStaStart e = false → isDisconnect e = false → isGotIp e = false →
      event_handler st e.event_base e.event_id = (st, []) ∧
        connectCalls (event_handler st e.event_base e.event_id).2 = 0) := by
  refine ⟨deliver_bounds evs _ ⟨le_refl _, by norm_num⟩, ?_, ?_, ?_⟩
  · rcases event_cases4 e with rfl | rfl | rfl | ⟨h1, h2, h3⟩
    · rw [handler_at_staStartEv]
      have a : isGotIp staStartEv = false := by decide
      have b : isDisconnect staStartEv = false := by decide
      simp [a, b]
    · rw [handler_at_disconnectEv]
      have a : isGotIp disconnectEv = false := by decide
      have b : isDisconnect disconnectEv = true := by decide
      by_cases c : st.s_retry_num < 3
      · simp [a, b, c]
      · simp [a, b, c]
    · rw [handler_at_gotIpEv]
      have a : isGotIp gotIpEv = true := by decide
      simp [a]
    · rw [event_handler_unhandled st e h1 h2 h3]
      simp [h2, h3]
  · intro hd hlt
    rw [(isDisconnect_iff e).1 hd, handler_at_disconnectEv]
    simp only [hlt, if_true]
    decide
  · intro h1 h2 h3
    rw [event_handler_unhandled st e h1 h2 h3]
    exact ⟨rfl, rfl⟩

/-- Witness of C9: an event of a foreign base with the id of a disconnect, and an
IP event with another id, are not handled. -/
theorem retry_counter_invariant_witness :
    event_handler { s_retry_num := 2, s_wifi_event_group := 1 }
        (esp_event_base_t.other 4) WIFI_EVENT_STA_DISCONNECTED =
      ({ s_retry_num := 2, s_wifi_event_group := 1 }, []) ∧
    connectCalls (event_handler { s_retry_num := 2, s_wifi_event_group := 1 }
        esp_event_base_t.WIFI_EVENT WIFI_EVENT_STA_DISCONNECTED).2 = 1 :=
  ⟨((retry_counter_invariant 0 [] { s_retry_num := 2, s_wifi_event_group := 1 }
      { event_base := esp_event_base_t.other 4,
        event_id := WIFI_EVENT_STA_DISCONNECTED }).2.2.2
      (by decide) (by decide) (by decide)).1,
   (retry_counter_invariant 0 [] { s_retry_num := 2, s_wifi_event_group := 1 }
      disconnectEv).2.2.1 (by decide) (by decide)⟩

/-- C10 (got-IP restores the retry budget and never clears a failure): a got-IP
event sets `s_retry_num` to 0, sets `WIFI_CONNECTED_BIT`, makes no
`esp_wifi_connect` call and leaves `WIFI_FAIL_BIT` as it was.  No event makes the
handler clear a bit of the event group; a state with both bits set is reached from
the initial state; and after a got-IP event, in any state, the next disconnects
are retried again up to 3 times. -/
theorem got_ip_restores_budget (st : WifiState) (e : WifiEvent) (i : Nat)
    (es : List WifiEvent) :
    ((event_handler st esp_event_base_t.IP_EVENT IP_EVENT_STA_GOT_IP).1.s_retry_num = 0 ∧
      (event_handler st esp_event_base_t.IP_EVENT IP_EVENT_STA_GOT_IP).1.s_wifi_event_group =
        st.s_wifi_event_group ||| WIFI_CONNECTED_BIT ∧
      connectedBit (event_handler st esp_event_base_t.IP_EVENT
        IP_EVENT_STA_GOT_IP).1.s_wifi_event_group = true ∧
      setsBits WIFI_CONNECTED_BIT
        (event_handler st esp_event_base_t.IP_EVENT IP_EVENT_STA_GOT_IP).2 = true ∧
      connectCalls (event_handler st esp_event_base_t.IP_EVENT IP_EVENT_STA_GOT_IP).2 = 0 ∧
      failBit (event_handler st esp_event_base_t.IP_EVENT
        IP_EVENT_STA_GOT_IP).1.s_wifi_event_group = failBit st.s_wifi_event_group) ∧
    (st.s_wifi_event_group.testBit i = true →
      (event_handler st e.event_base e.event_id).1.s_wifi_event_group.testBit i = true) ∧
    (∃ evs : List WifiEvent,
      connectedBit (deliver initialState evs).s_wifi_event_group = true ∧
        failBit (deliver initialState evs).s_wifi_event_group = true) ∧
    ((∀ x ∈ es, isGotIp x = false) →
      retryConnects st (gotIpEv :: es) = min (disconnects es) 3) := by
  refine ⟨?_, event_handler_keeps_bits st e i, ?_, ?_⟩
  · rw [event_handler_gotIp]
    refine ⟨rfl, rfl, ?_, by simp [setsBits], by simp [connectCalls], ?_⟩
    · simp only [connectedBit, Nat.testBit_lor]
      have hb : WIFI_CONNECTED_BIT.testBit 0 = true := by decide
      simp [hb]
    · simp only [failBit, Nat.testBit_lor]
      have hb : WIFI_CONNECTED_BIT.testBit 1 = false := by decide
      simp [hb]
  · exact ⟨[disconnectEv, disconnectEv, disconnectEv, disconnectEv, gotIpEv],
      by decide, by decide⟩
  · intro hno
    rw [retryConnects_cons, handler_at_gotIpEv]
    have a : isDisconnect gotIpEv = false := by decide
    simp only [a, Bool.false_eq_true, if_false, zero_add]
    rw [retryConnects_noGotIp es _ hno]
    have h3 : (3 - (0 : Int)).toNat = 3 := by decide
    simp only [h3]

/-- Witness of C10: after three retries and a failure, a got-IP event gives three
more retries. -/
theorem got_ip_restores_budget_witness :
    (deliver initialState
        [disconnectEv, disconnectEv, disconnectEv, disconnectEv]).s_retry_num = 3 ∧
      retryConnects (deliver initialState
        [disconnectEv, disconnectEv, disconnectEv, disconnectEv])
        (gotIpEv :: [disconnectEv, disconnectEv, disconnectEv, disconnectEv]) = 3 ∧
      (deliver initialState
        [disconnectEv, disconnectEv, disconnectEv, disconnectEv,
          gotIpEv]).s_wifi_event_group.testBit 1 = true := by
  have h := got_ip_restores_budget
    (deliver initialState [disconnectEv, disconnectEv, disconnectEv, disconnectEv])
    gotIpEv 1 [disconnectEv, disconnectEv, disconnectEv, disconnectEv]
  refine ⟨by decide, ?_, ?_⟩
  · have h4 := h.2.2.2 (by decide)
    have hd : disconnects [disconnectEv, disconnectEv, disconnectEv, disconnectEv] = 4 := by
      decide
    rw [hd] at h4
    exact h4
  · exact h.2.1 (by decide)

/-! ## Boot: lemmas -/

theorem trace_bind {α β : Type} (m : Boot α) (f : α → Boot β) :
    (m >>= f).trace =
      m.trace ++ (match m.outcome with
        | Outcome.returned a => (f a).trace
        | _ => []) := by
  show (Boot.bind m f).trace = _
  unfold Boot.bind
  cases h : m.outcome <;> simp

theorem outcome_bind {α β : Type} (m : Boot α) (f : α → Boot β) :
    (m >>= f).outcome =
      (match m.outcome with
        | Outcome.returned a => (f a).outcome
        | Outcome.aborted => Outcome.aborted
        | Outcome.blocked => Outcome.blocked) := by
  show (Boot.bind m f).outcome = _
  unfold Boot.bind
  cases h : m.outcome <;> simp

theorem trace_pure {α : Type} (a : α) : (pure a : Boot α).trace = [] := rfl

theorem outcome_pure {α : Type} (a : α) : (pure a : Boot α).outcome = Outcome.returned a := rfl

theorem bootCheckFrom_tail (r : VendorResults) (pre : List Step) :
    bootCheckFrom pre (WIFI_Handler.init_sta r >>= fun _ => MQTT_Handler.start r) = true := by
  unfold bootCheckFrom
  simp only [WIFI_Handler.init_sta, MQTT_Handler.start, trace_bind, outcome_bind,
    trace_pure, outcome_pure, callErr, callHandle, callVoid, ESP_ERROR_CHECK, waitBits]
  by_cases h_esp_netif_init : r.esp_netif_init = ESP_OK
  swap
  · simp [h_esp_netif_init, fatalOkFrom, fatalAt, isChecked, abortStep, isMqttStart, trace_pure,
      outcome_pure]
  simp only [h_esp_netif_init, if_true, trace_pure, outcome_pure]
  by_cases h_esp_event_loop_create_default : r.esp_event_loop_create_default = ESP_OK
  swap
  · simp [h_esp_event_loop_create_default, fatalOkFrom, fatalAt, isChecked, abortStep, isMqttStart, trace_pure,
      outcome_pure]
  simp only [h_esp_event_loop_create_default, if_true, trace_pure, outcome_pure]
  by_cases h_esp_wifi_init : r.esp_wifi_init = ESP_OK
  swap
  · simp [h_esp_wifi_init, fatalOkFrom, fatalAt, isChecked, abortStep, isMqttStart, trace_pure,
      outcome_pure]
  simp only [h_esp_wifi_init, if_true, trace_pure, outcome_pure]
  by_cases h_register_wifi : r.register_wifi = ESP_OK
  swap
  · simp [h_register_wifi, fatalOkFrom, fatalAt, isChecked, abortStep, isMqttStart, trace_pure,
      outcome_pure]
  simp only [h_register_wifi, if_true, trace_pure, outcome_pure]
  by_cases h_register_ip : r.register_ip = ESP_OK
  swap
  · simp [h_register_ip, fatalOkFrom, fatalAt, isChecked, abortStep, isMqttStart, trace_pure,
      outcome_pure]
  simp only [h_register_ip, if_true, trace_pure, outcome_pure]
  by_cases h_esp_wifi_set_mode : r.esp_wifi_set_mode = ESP_OK
  swap
  · simp [h_esp_wifi_set_mode, fatalOkFrom, fatalAt, isChecked, abortStep, isMqttStart, trace_pure,
      outcome_pure]
  simp only [h_esp_wifi_set_mode, if_true, trace_pure, outcome_pure]
  by_cases h_esp_wifi_set_config : r.esp_wifi_set_config = ESP_OK
  swap
  · simp [h_esp_wifi_set_config, fatalOkFrom, fatalAt, isChecked, abortStep, isMqttStart, trace_pure,
      outcome_pure]
  simp only [h_esp_wifi_set_config, if_true, trace_pure, outcome_pure]
  by_cases h_esp_wifi_start : r.esp_wifi_start = ESP_OK
  swap
  · simp [h_esp_wifi_start, fatalOkFrom, fatalAt, isChecked, abortStep, isMqttStart, trace_pure,
      outcome_pure]
  simp only [h_esp_wifi_start, if_true, trace_pure, outcome_pure]
  cases hw : r.xEventGroupWaitBits with
  | none =>
    simp [fatalOkFrom, fatalAt, isChecked, abortStep, isMqttStart]
  | some b =>
    by_cases c1 : b &&& WIFI_CONNECTED_BIT = 0 <;>
      by_cases c2 : b &&& WIFI_FAIL_BIT = 0 <;>
      by_cases h1 : r.unregister_ip = ESP_OK <;>
      by_cases h2 : r.unregister_wifi = ESP_OK <;>
      simp [c1, c2, h1, h2, fatalOkFrom, fatalAt, isChecked, abortStep, isMqttStart,
        trace_pure, outcome_pure]

theorem bootCheckFrom_app_main (r : VendorResults) :
    bootCheckFrom [] (app_main r) = true := by
  have tail := bootCheckFrom_tail r
  unfold app_main
  generalize (WIFI_Handler.init_sta r >>= fun _ => MQTT_Handler.start r) = T at tail ⊢
  unfold bootCheckFrom at tail ⊢
  simp only [trace_bind, outcome_bind, trace_pure, outcome_pure, callErr,
    callVoid, ESP_ERROR_CHECK]
  have tA : ∀ pre, fatalOkFrom pre T.trace = true := fun pre => by
    have h := tail pre
    simp only [Bool.and_eq_true] at h
    exact h.1.1
  have tB : (decide (T.outcome = Outcome.aborted) == T.trace.contains abortStep) = true := by
    have h := tail []
    simp only [Bool.and_eq_true] at h
    exact h.1.2
  have tC : (T.trace.any fun s => isMqttStart s.call) = false := by
    have h := tail []
    simp only [Bool.and_eq_true] at h
    simpa using h.2
  have tB2 : T.outcome = Outcome.aborted ↔
      ({ call := BootCall.abort, ret := Ret.void } : Step) ∈ T.trace := by
    simpa [abortStep] using tB
  have tC2 : ∀ x ∈ T.trace, isMqttStart x.call = false := by
    simpa using tC
  simp only [isMqttStart] at tC2
  by_cases hn : r.nvs_flash_init_first = ESP_ERR_NVS_NO_FREE_PAGES ∨
      r.nvs_flash_init_first = ESP_ERR_NVS_NEW_VERSION_FOUND
  · simp only [hn, if_true, trace_bind, outcome_bind, trace_pure, outcome_pure]
    have hf : fatalAt []
        { call := BootCall.nvs_flash_init, ret := Ret.esp_err r.nvs_flash_init_first } = false := by
      rcases hn with h | h <;> simp [fatalAt, h, isChecked]
    by_cases he : r.nvs_flash_erase = ESP_OK
    swap
    · simp [he, hf, fatalOkFrom, fatalAt, isChecked, abortStep, isMqttStart, trace_pure,
        outcome_pure]
      exact Or.inr hn
    simp only [he, if_true, trace_pure, outcome_pure]
    by_cases h2 : r.nvs_flash_init_second = ESP_OK
    swap
    · simp [h2, hf, fatalOkFrom, fatalAt, isChecked, abortStep, isMqttStart, trace_pure,
        outcome_pure]
      exact Or.inr hn
    simp only [h2, if_true, trace_pure, outcome_pure]
    simp [hf, fatalOkFrom, fatalAt, isChecked, abortStep, isMqttStart, tA, tC]
    exact ⟨⟨Or.inr hn, tB2⟩, tC2⟩
  · simp only [hn, if_false, trace_pure, outcome_pure]
    by_cases h1 : r.nvs_flash_init_first = ESP_OK
    swap
    · have hn2 := not_or.1 hn
      simp [h1, hn2.1, hn2.2, fatalOkFrom, fatalAt, isChecked, abortStep, isMqttStart,
        trace_pure, outcome_pure]
    simp only [h1, if_true, trace_pure, outcome_pure]
    simp [fatalOkFrom, fatalAt, isChecked, abortStep, isMqttStart, tA, tC]
    exact ⟨tB2, tC2⟩

/-! ## MQTT: lemmas and claims -/

/-- The callback publishes at most the one fixed reply. -/
theorem publishes_cases (event : esp_mqtt_event_t) :
    publishes event = [] ∨ publishes event = [pongCall event.client] := by
  unfold publishes mqtt_event_handler_cb
  split_ifs <;> simp [isPublish, pongCall]

/-- The callback subscribes exactly on a connected event. -/
theorem subscribes_eq (event : esp_mqtt_event_t) :
    subscribes event =
      if event.event_id = MQTT_EVENT_CONNECTED then
        [MqttCall.esp_mqtt_client_subscribe event.client MQTT_TOPIC 0]
      else [] := by
  unfold subscribes mqtt_event_handler_cb
  split_ifs <;> simp [isSubscribe]

/-- The value of `strcmp(s, "ping")` is 0 exactly when the memory at `s` holds `ping` and then a
NUL. -/
theorem strcmp_ping_eq_zero_iff (s : Nat → Nat) :
    strcmp s (cstr "ping") = 0 ↔
      (s 0 = 112 ∧ s 1 = 105 ∧ s 2 = 110 ∧ s 3 = 103 ∧ s 4 = 0) := by
  have hc : cstr "ping" = [112, 105, 110, 103] := by decide
  rw [hc]
  simp only [strcmp, zero_add, Nat.reduceAdd]
  split_ifs <;> first | contradiction | omega

/-- The callback replies exactly to a data event whose data, read as a C string, is
`ping`; the length `data_len` plays no role. -/
theorem reply_iff (event : esp_mqtt_event_t) :
    publishes event = [pongCall event.client] ↔
      (event.event_id = MQTT_EVENT_DATA ∧
        event.data 0 = 112 ∧ event.data 1 = 105 ∧ event.data 2 = 110 ∧
        event.data 3 = 103 ∧ event.data 4 = 0) := by
  rw [← strcmp_ping_eq_zero_iff]
  unfold publishes mqtt_event_handler_cb
  split_ifs with h1 h2 h3 h4 h5 h6 <;>
    simp_all [isPublish, pongCall, MQTT_EVENT_CONNECTED, MQTT_EVENT_DISCONNECTED,
      MQTT_EVENT_SUBSCRIBED, MQTT_EVENT_PUBLISHED, MQTT_EVENT_DATA]

/-- C2, the code at a failing input: a data event whose payload is exactly the
four bytes `ping` (`data_len = 4`), with a byte other than NUL after the payload in
the receive buffer, gets no `esp_mqtt_client_publish` call: `strcmp` reads past
`data_len`. -/
theorem ping_in_stale_buffer_gets_no_pong :
    pingInStaleBuffer.event_id = MQTT_EVENT_DATA ∧
      pingInStaleBuffer.data_len = 4 ∧
      payload pingInStaleBuffer = cstr "ping" ∧
      strcmp pingInStaleBuffer.data (cstr "ping") = 33 ∧
      publishes pingInStaleBuffer = [] := by
  decide

/-- C3, the code at failing inputs: data events whose payload is not `ping` (the
five bytes `ping` NUL; the three bytes `pin`; the empty payload) get the `pong`
reply, because `strcmp` stops at the first NUL in memory and never looks at
`data_len`. -/
theorem other_payloads_get_pong :
    (payload pingNulPayload ≠ cstr "ping" ∧
      publishes pingNulPayload = [pongCall 1]) ∧
    (payload pinPayload = cstr "pin" ∧ payload pinPayload ≠ cstr "ping" ∧
      publishes pinPayload = [pongCall 1]) ∧
    (payload emptyPayload = [] ∧ publishes emptyPayload = [pongCall 1]) := by
  decide

/-- C7 (the pong goes to the same topic): for every data event that triggers a
reply and whose message came on the fixed topic `/__GK__/hello`, the topic argument
of the `esp_mqtt_client_publish` call equals the topic of the received message
(`event->topic`, `topic_len` bytes).  That fixed topic is the topic argument of
every publish call and of every subscribe call the callback makes, for any event. -/
theorem pong_topic_is_fixed (event : esp_mqtt_event_t) (other : esp_mqtt_event_t) :
    (receivedTopic event = cstr "/__GK__/hello" →
      ∀ c ∈ publishes event,
        event.event_id = MQTT_EVENT_DATA ∧
          (topicArg c).map cstr = some (receivedTopic event)) ∧
    (∀ c ∈ publishes other, topicArg c = some "/__GK__/hello") ∧
    (∀ c ∈ subscribes other, topicArg c = some "/__GK__/hello") ∧
    MQTT_TOPIC = "/__GK__/hello" := by
  have hp : ∀ (ev : esp_mqtt_event_t), ∀ c ∈ publishes ev, topicArg c = some MQTT_TOPIC := by
    intro ev c hc
    rcases publishes_cases ev with h | h
    · rw [h] at hc; cases hc
    · rw [h] at hc
      rw [List.mem_singleton.1 hc]
      rfl
  refine ⟨?_, hp other, ?_, rfl⟩
  · intro ht c hc
    refine ⟨?_, ?_⟩
    · rcases publishes_cases event with h | h
      · rw [h] at hc; cases hc
      · exact ((reply_iff event).1 h).1
    · rw [hp event c hc, ht]
      rfl
  · intro c hc
    rw [subscribes_eq] at hc
    split_ifs at hc with h
    · rw [List.mem_singleton.1 hc]; rfl
    · cases hc

/-- Witness of C7: a `ping` received on the fixed topic is answered by one publish
call, whose topic is the topic of the message. -/
theorem pong_topic_is_fixed_witness :
    receivedTopic pingOnFixedTopic = cstr "/__GK__/hello" ∧
      publishes pingOnFixedTopic = [pongCall 1] ∧
      (topicArg (pongCall 1)).map cstr = some (receivedTopic pingOnFixedTopic) :=
  ⟨by decide, by decide,
   ((pong_topic_is_fixed pingOnFixedTopic connectedEvent).1 (by decide) (pongCall 1)
      (by decide)).2⟩

/-- C8 (subscribes to one fixed topic on connection): for a connected event the
callback makes exactly one `esp_mqtt_client_subscribe` call, on the client of the
event, with topic `/__GK__/hello` (QoS 0), and no publish call; for an event of any
other kind it makes no subscribe call. -/
theorem subscribe_on_connected (event : esp_mqtt_event_t) :
    (event.event_id = MQTT_EVENT_CONNECTED →
      subscribes event = [MqttCall.esp_mqtt_client_subscribe event.client "/__GK__/hello" 0] ∧
        publishes event = []) ∧
    (event.event_id ≠ MQTT_EVENT_CONNECTED → subscribes event = []) := by
  refine ⟨?_, ?_⟩
  · intro h
    refine ⟨?_, ?_⟩
    · rw [subscribes_eq, if_pos h]; rfl
    · unfold publishes mqtt_event_handler_cb
      rw [if_pos h]
      simp [isPublish]
  · intro h
    rw [subscribes_eq, if_neg h]

/-- Witness of C8: a connected event of client 5, and a data event. -/
theorem subscribe_on_connected_witness :
    subscribes connectedEvent = [MqttCall.esp_mqtt_client_subscribe 5 "/__GK__/hello" 0] ∧
      publishes connectedEvent = [] ∧
      subscribes pingOnFixedTopic = [] :=
  ⟨((subscribe_on_connected connectedEvent).1 (by decide)).1,
   ((subscribe_on_connected connectedEvent).1 (by decide)).2,
   (subscribe_on_connected pingOnFixedTopic).2 (by decide)⟩

/-! ## Boot: the claims -/

/-- What `fatalOkFrom` checks, for every way of cutting the trace at a step. -/
theorem fatalOkFrom_split (t : List Step) :
    ∀ pre0 : List Step, fatalOkFrom pre0 t = true →
      ∀ (pre : List Step) (s : Step) (post : List Step), t = pre ++ s :: post →
        fatalAt (pre0 ++ pre) s = true → post = [abortStep] := by
  induction t with
  | nil =>
    intro pre0 _ pre s post hsplit _
    exact absurd hsplit (by simp)
  | cons x xs ih =>
    intro pre0 h pre s post hsplit hf
    simp only [fatalOkFrom, Bool.and_eq_true] at h
    cases pre with
    | nil =>
      simp only [List.nil_append, List.cons.injEq] at hsplit
      obtain ⟨hx, hxs⟩ := hsplit
      subst hx; subst hxs
      rw [List.append_nil] at hf
      have h1 := h.1
      rw [if_pos hf] at h1
      exact of_decide_eq_true h1
    | cons p ps =>
      simp only [List.cons_append, List.cons.injEq] at hsplit
      obtain ⟨hx, hxs⟩ := hsplit
      subst hx
      refine ih (pre0 ++ [x]) h.2 ps s post hxs ?_
      rw [List.append_assoc]
      exact hf

/-- C5, the code on every boot: `MQTT_Handler::start` makes two vendor calls, the
initialisation of a client with broker URI `mqtt://broker.hivemq.com` and the
registration of the event handler; neither it nor any other part of `app_main`
calls `esp_mqtt_client_start`, so the client is never asked to connect.  The last
two parts give the whole boot with every vendor call succeeding. -/
theorem mqtt_client_never_started (r : VendorResults) :
    callsOf (MQTT_Handler.start r) =
      [BootCall.esp_mqtt_client_init "mqtt://broker.hivemq.com",
       BootCall.esp_mqtt_client_register_event r.esp_mqtt_client_init ESP_EVENT_ANY_ID] ∧
    (callsOf (app_main r)).any isMqttStart = false ∧
    callsOf (app_main (allOk 1)) =
      [BootCall.nvs_flash_init,
       BootCall.ESP_LOGI TAG_WIFI "Lauching wifi connection",
       BootCall.xEventGroupCreate,
       BootCall.esp_netif_init,
       BootCall.esp_event_loop_create_default,
       BootCall.esp_netif_create_default_wifi_sta,
       BootCall.esp_wifi_init,
       BootCall.esp_event_handler_instance_register esp_event_base_t.WIFI_EVENT ESP_EVENT_ANY_ID,
       BootCall.esp_event_handler_instance_register esp_event_base_t.IP_EVENT IP_EVENT_STA_GOT_IP,
       BootCall.esp_wifi_set_mode WIFI_MODE_STA,
       BootCall.esp_wifi_set_config "rogo" "123456789",
       BootCall.esp_wifi_start,
       BootCall.ESP_LOGI TAG_WIFI "wifi_init_sta finished.",
       BootCall.xEventGroupWaitBits 3,
       BootCall.ESP_LOGI TAG_WIFI "connected to ap SSID:%s password:%s",
       BootCall.esp_event_handler_instance_unregister esp_event_base_t.IP_EVENT
         IP_EVENT_STA_GOT_IP,
       BootCall.esp_event_handler_instance_unregister esp_event_base_t.WIFI_EVENT
         ESP_EVENT_ANY_ID,
       BootCall.vEventGroupDelete,
       BootCall.esp_mqtt_client_init "mqtt://broker.hivemq.com",
       BootCall.esp_mqtt_client_register_event 1 ESP_EVENT_ANY_ID] ∧
    (app_main (allOk 1)).outcome = Outcome.returned () := by
  refine ⟨?_, ?_, by decide, by decide⟩
  · simp [callsOf, MQTT_Handler.start, trace_bind, outcome_bind, trace_pure, callHandle,
      callErr, MQTT_BROKER_URI]
  · have h := bootCheckFrom_app_main r
    simp only [bootCheckFrom, Bool.and_eq_true, Bool.not_eq_true'] at h
    simpa [callsOf, List.any_map] using h.2

/-- C6, counterexample: two assignments of results in which a call that is reached
returns a failure value and the boot goes on to its end.  In the first,
`nvs_flash_init` returns `ESP_ERR_NVS_NO_FREE_PAGES`; in the second,
`esp_mqtt_client_init` returns `NULL`. -/
theorem init_failure_not_fatal_counterexample :
    ((app_main { allOk 1 with nvs_flash_init_first := ESP_ERR_NVS_NO_FREE_PAGES }).outcome =
        Outcome.returned () ∧
      (callsOf (app_main
          { allOk 1 with nvs_flash_init_first := ESP_ERR_NVS_NO_FREE_PAGES })).take 4 =
        [BootCall.nvs_flash_init, BootCall.nvs_flash_erase, BootCall.nvs_flash_init,
         BootCall.ESP_LOGI TAG_WIFI "Lauching wifi connection"] ∧
      (callsOf (app_main
          { allOk 1 with nvs_flash_init_first := ESP_ERR_NVS_NO_FREE_PAGES })).contains
        BootCall.abort = false) ∧
    ((app_main { allOk 1 with esp_mqtt_client_init := 0 }).outcome = Outcome.returned () ∧
      (callsOf (app_main { allOk 1 with esp_mqtt_client_init := 0 })).drop 18 =
        [BootCall.esp_mqtt_client_init "mqtt://broker.hivemq.com",
         BootCall.esp_mqtt_client_register_event 0 ESP_EVENT_ANY_ID] ∧
      (callsOf (app_main { allOk 1 with esp_mqtt_client_init := 0 })).contains
        BootCall.abort = false) := by
  decide

/-- C6, amended: in every assignment of results, a call written inside
`ESP_ERROR_CHECK` (`nvs_flash_erase`, `esp_netif_init`,
`esp_event_loop_create_default`, `esp_wifi_init`, the two handler registrations,
`esp_wifi_set_mode`, `esp_wifi_set_config`, `esp_wifi_start`, the two handler
unregistrations) that is reached and returns a value other than `ESP_OK` is followed
by `abort` and by nothing else, and the boot is aborted; the same holds for an
`nvs_flash_init` that returns a value other than `ESP_OK`, except for the first one
when it returns `ESP_ERR_NVS_NO_FREE_PAGES` or `ESP_ERR_NVS_NEW_VERSION_FOUND`.  In
that case the next call is `nvs_flash_erase`; when the erase fails the boot aborts
there; when it succeeds `nvs_flash_init` is called a second time, a failure of that
second call aborts the boot, and after its success the boot goes on with the log
line, `init_sta` and `start`. -/
theorem checked_failures_are_fatal (r : VendorResults) (pre post : List Step) (s : Step)
    (rc : Int) :
    ((app_main r).trace = pre ++ s :: post →
      s.ret = Ret.esp_err rc → rc ≠ ESP_OK →
      (isChecked s.call = true ∨
        (s.call = BootCall.nvs_flash_init ∧
          (pre ≠ [] ∨
            (rc ≠ ESP_ERR_NVS_NO_FREE_PAGES ∧ rc ≠ ESP_ERR_NVS_NEW_VERSION_FOUND)))) →
      post = [abortStep] ∧ (app_main r).outcome = Outcome.aborted) ∧
    ((r.nvs_flash_init_first = ESP_ERR_NVS_NO_FREE_PAGES ∨
        r.nvs_flash_init_first = ESP_ERR_NVS_NEW_VERSION_FOUND) →
      (r.nvs_flash_erase ≠ ESP_OK →
        (app_main r).trace =
          [{ call := BootCall.nvs_flash_init, ret := Ret.esp_err r.nvs_flash_init_first },
           { call := BootCall.nvs_flash_erase, ret := Ret.esp_err r.nvs_flash_erase },
           abortStep] ∧
        (app_main r).outcome = Outcome.aborted) ∧
      (r.nvs_flash_erase = ESP_OK → r.nvs_flash_init_second ≠ ESP_OK →
        (app_main r).trace =
          [{ call := BootCall.nvs_flash_init, ret := Ret.esp_err r.nvs_flash_init_first },
           { call := BootCall.nvs_flash_erase, ret := Ret.esp_err r.nvs_flash_erase },
           { call := BootCall.nvs_flash_init, ret := Ret.esp_err r.nvs_flash_init_second },
           abortStep] ∧
        (app_main r).outcome = Outcome.aborted) ∧
      (r.nvs_flash_erase = ESP_OK → r.nvs_flash_init_second = ESP_OK →
        (app_main r).trace =
          { call := BootCall.nvs_flash_init, ret := Ret.esp_err r.nvs_flash_init_first } ::
          { call := BootCall.nvs_flash_erase, ret := Ret.esp_err r.nvs_flash_erase } ::
          { call := BootCall.nvs_flash_init, ret := Ret.esp_err r.nvs_flash_init_second } ::
          { call := BootCall.ESP_LOGI TAG_WIFI "Lauching wifi connection", ret := Ret.void } ::
          (WIFI_Handler.init_sta r >>= fun _ => MQTT_Handler.start r).trace ∧
        (app_main r).outcome =
          (WIFI_Handler.init_sta r >>= fun _ => MQTT_Handler.start r).outcome)) := by
  refine ⟨?_, ?_⟩
  · intro hsplit hret hrc hcall
    have h := bootCheckFrom_app_main r
    simp only [bootCheckFrom, Bool.and_eq_true, beq_iff_eq] at h
    have hf : fatalAt ([] ++ pre) s = true := by
      rw [List.nil_append]
      unfold fatalAt
      rw [hret]
      rcases hcall with hc | ⟨hc, hp | ⟨h1, h2⟩⟩
      · simp [hrc, hc]
      · have : pre.isEmpty = false := by
          cases pre with
          | nil => exact absurd rfl hp
          | cons a as => rfl
        simp [hrc, hc, this]
      · simp [hrc, hc, h1, h2]
    have hpost := fatalOkFrom_split _ [] h.1.1 pre s post hsplit hf
    refine ⟨hpost, ?_⟩
    have hmem : (app_main r).trace.contains abortStep = true := by
      rw [hsplit, hpost]
      simp
    have hB := h.1.2
    rw [hmem] at hB
    exact of_decide_eq_true hB
  · intro hn
    unfold app_main
    generalize (WIFI_Handler.init_sta r >>= fun _ => MQTT_Handler.start r) = T
    refine ⟨?_, ?_, ?_⟩
    · intro he
      rcases hn with h | h <;>
        simp [trace_bind, outcome_bind, trace_pure, outcome_pure, callErr, callVoid,
          ESP_ERROR_CHECK, abortStep, h, he]
    · intro he h2
      rcases hn with h | h <;>
        simp [trace_bind, outcome_bind, trace_pure, outcome_pure, callErr, callVoid,
          ESP_ERROR_CHECK, abortStep, h, he, h2]
    · intro he h2
      rcases hn with h | h <;>
        simp [trace_bind, outcome_bind, trace_pure, outcome_pure, callErr, callVoid,
          ESP_ERROR_CHECK, abortStep, h, he, h2]

/-- Witness of C6 amended: `esp_wifi_init` fails and the boot stops there; a first
`nvs_flash_init` that finds no free page is followed by the erase and by a second
`nvs_flash_init`, and a failure of either aborts the boot. -/
theorem checked_failures_are_fatal_witness :
    (app_main { allOk 1 with esp_wifi_init := 0x3001 }).outcome = Outcome.aborted ∧
      (callsOf (app_main
          { allOk 1 with nvs_flash_init_first := ESP_ERR_NVS_NO_FREE_PAGES })).take 4 =
        [BootCall.nvs_flash_init, BootCall.nvs_flash_erase, BootCall.nvs_flash_init,
         BootCall.ESP_LOGI TAG_WIFI "Lauching wifi connection"] ∧
      (app_main { allOk 1 with nvs_flash_init_first := ESP_ERR_NVS_NO_FREE_PAGES,
                               nvs_flash_init_second := 0x1101 }).trace =
        [{ call := BootCall.nvs_flash_init, ret := Ret.esp_err ESP_ERR_NVS_NO_FREE_PAGES },
         { call := BootCall.nvs_flash_erase, ret := Ret.esp_err ESP_OK },
         { call := BootCall.nvs_flash_init, ret := Ret.esp_err 0x1101 },
         abortStep] ∧
      (app_main { allOk 1 with nvs_flash_init_first := ESP_ERR_NVS_NEW_VERSION_FOUND,
                               nvs_flash_erase := 0x1101 }).trace =
        [{ call := BootCall.nvs_flash_init, ret := Ret.esp_err ESP_ERR_NVS_NEW_VERSION_FOUND },
         { call := BootCall.nvs_flash_erase, ret := Ret.esp_err 0x1101 },
         abortStep] := by
  refine ⟨?_, ?_, ?_, ?_⟩
  · exact ((checked_failures_are_fatal { allOk 1 with esp_wifi_init := 0x3001 }
      [{ call := BootCall.nvs_flash_init, ret := Ret.esp_err ESP_OK },
       { call := BootCall.ESP_LOGI TAG_WIFI "Lauching wifi connection", ret := Ret.void },
       { call := BootCall.xEventGroupCreate, ret := Ret.handle 1 },
       { call := BootCall.esp_netif_init, ret := Ret.esp_err ESP_OK },
       { call := BootCall.esp_event_loop_create_default, ret := Ret.esp_err ESP_OK },
       { call := BootCall.esp_netif_create_default_wifi_sta, ret := Ret.handle 1 }]
      [abortStep]
      { call := BootCall.esp_wifi_init, ret := Ret.esp_err 0x3001 } 0x3001).1
      (by decide) rfl (by decide) (Or.inl rfl)).2
  · have h := ((checked_failures_are_fatal
        { allOk 1 with nvs_flash_init_first := ESP_ERR_NVS_NO_FREE_PAGES }
        [] [] abortStep 0).2 (Or.inl rfl)).2.2 rfl rfl
    simp only [callsOf, h.1]
    rfl
  · exact (((checked_failures_are_fatal
        { allOk 1 with nvs_flash_init_first := ESP_ERR_NVS_NO_FREE_PAGES,
                       nvs_flash_init_second := 0x1101 }
        [] [] abortStep 0).2 (Or.inl rfl)).2.1 rfl (by decide)).1
  · exact (((checked_failures_are_fatal
        { allOk 1 with nvs_flash_init_first := ESP_ERR_NVS_NEW_VERSION_FOUND,
                       nvs_flash_erase := 0x1101 }
        [] [] abortStep 0).2 (Or.inr rfl)).1 (by decide)).1

end GK
